import Mathlib

/-!
Verification development for the `ztron_pdf` page-rendering-and-encoding
pipeline (`src/core.rs`).

The external collaborators (the Pdfium engine binding, the page rasterizer,
and the JPEG/PNG/WEBP image encoders) are out of scope per the design and
are modelled as an abstract environment `Env` of (fallible) functions; the
core pipeline `render_base64_pdf`, the format parser
`ImageOutputFormat.fromStr`, the stub `compress_pdf`, and the base64
transport codec (the `base64` crate's STANDARD engine, RFC 4648 with
padding) are embedded concretely.

Byte buffers (`Vec<u8>` in the source) are modelled as `List Nat`, with the
`u8` range captured by explicit `< 256` bounds where they matter.
Documents are modelled as the list of their pages; pages, bitmaps and RGB
images are opaque tokens (`Nat`), since the pipeline never inspects them and
only passes them between the engine and the encoders.
-/

namespace ZtronPdf

/-- Output unit of the pipeline: one page's encoded image, base64-text
encoded (struct `PageData` in `src/core.rs`). -/
structure PageData where
  base64_image : String
deriving DecidableEq, Repr

/-- Closed enumeration of the supported output formats
(enum `ImageOutputFormat` in `src/core.rs`). -/
inductive ImageOutputFormat where
  | JPEG
  | PNG
  | WEBP
deriving DecidableEq, Repr

/-- Rotation argument of `rotate_if_landscape`
(`PdfPageRenderRotation` in `pdfium_render`). -/
inductive PdfPageRenderRotation where
  | nothing
  | degrees90
  | degrees180
  | degrees270
deriving DecidableEq, Repr

/-- The render-configuration fields that `render_base64_pdf` sets on
`PdfRenderConfig::new()` before invoking the engine. Field names follow the
builder methods used in the source (`set_target_width`,
`set_maximum_height`, `rotate_if_landscape`, `render_form_data`,
`use_grayscale_rendering`). -/
structure PdfRenderConfig where
  target_width : Int
  maximum_height : Int
  rotate_if_landscape_rotation : PdfPageRenderRotation
  rotate_if_landscape_enabled : Bool
  render_form_data : Bool
  use_grayscale_rendering : Bool
deriving DecidableEq, Repr

/-- Model of Rust's `str::to_uppercase`: char-wise `Char.toUpper` (they
agree on ASCII, and none of the three format names is reachable from a
non-ASCII character under Unicode uppercasing). Defined over the
character list so that it evaluates by kernel reduction. -/
def upperStr (s : String) : String := String.mk (s.data.map Char.toUpper)

/-- Parses the output-format string, mirroring `ImageOutputFormat::from_str`
in `src/core.rs`: uppercase the input, then match against the three format
names; anything else is an error value. -/
def ImageOutputFormat.fromStr (s : String) : Except String ImageOutputFormat :=
  let u := upperStr s
  if u = "JPEG" then .ok .JPEG
  else if u = "PNG" then .ok .PNG
  else if u = "WEBP" then .ok .WEBP
  else .error ("Invalid format: " ++ s ++ ". Must be JPEG, PNG, or WEBP")

namespace Base64

/-- The standard base64 alphabet (the `base64` crate's STANDARD engine). -/
def alphabet : List Char :=
  "ABCDEFGHIJKLMNOPQRSTUVWXYZabcdefghijklmnopqrstuvwxyz0123456789+/".toList

/-- Character for a sextet value. -/
def b64Char (i : Nat) : Char := alphabet.getD i 'A'

/-- Sextet value for a character, `none` when the character is not in the
alphabet. -/
def b64Index (c : Char) : Option Nat := alphabet.findIdx? (· = c)

/-- Encodes a byte list into base64 characters, three bytes to four
characters, padding the final partial group with `=`. -/
def encodeChunks : List Nat → List Char
  | b0 :: b1 :: b2 :: rest =>
      b64Char (b0 / 4) :: b64Char ((b0 % 4) * 16 + b1 / 16) ::
      b64Char ((b1 % 16) * 4 + b2 / 64) :: b64Char (b2 % 64) :: encodeChunks rest
  | [b0, b1] =>
      [b64Char (b0 / 4), b64Char ((b0 % 4) * 16 + b1 / 16), b64Char ((b1 % 16) * 4), '=']
  | [b0] =>
      [b64Char (b0 / 4), b64Char ((b0 % 4) * 16), '=', '=']
  | [] => []

/-- Base64-encodes a byte buffer (`BASE64.encode` of the `base64` crate's
STANDARD engine). -/
def encode (bytes : List Nat) : String := String.mk (encodeChunks bytes)

/-- Decodes base64 characters four at a time. Mirrors the STANDARD engine's
strict decoding: the length must be a multiple of four, padding may appear
only at the end, and non-zero trailing bits in a padded group are rejected.
(The crate's error display strings are abstracted to short messages; no
claim depends on their exact text.) -/
def decodeChunks : List Char → Except String (List Nat)
  | [] => .ok []
  | c0 :: c1 :: c2 :: c3 :: rest =>
      match b64Index c0, b64Index c1 with
      | some r0, some r1 =>
          if c2 = '=' then
            if c3 = '=' ∧ rest = [] then
              if r1 % 16 = 0 then .ok [r0 * 4 + r1 / 16]
              else .error "Invalid last symbol"
            else .error "Invalid padding"
          else
            match b64Index c2 with
            | some r2 =>
                if c3 = '=' then
                  if rest = [] then
                    if r2 % 4 = 0 then .ok [r0 * 4 + r1 / 16, (r1 % 16) * 16 + r2 / 4]
                    else .error "Invalid last symbol"
                  else .error "Invalid padding"
                else
                  match b64Index c3 with
                  | some r3 =>
                      match decodeChunks rest with
                      | .ok tail =>
                          .ok ((r0 * 4 + r1 / 16) :: ((r1 % 16) * 16 + r2 / 4) ::
                               ((r2 % 4) * 64 + r3) :: tail)
                      | .error e => .error e
                  | none => .error "Invalid symbol"
            | none => .error "Invalid symbol"
      | _, _ => .error "Invalid symbol"
  | _ => .error "Invalid length"

/-- Base64-decodes a string (`BASE64.decode` of the STANDARD engine). -/
def decode (s : String) : Except String (List Nat) := decodeChunks s.toList

end Base64

/-- Abstract model of the external collaborators of the pipeline: the
Pdfium engine binding, the document loader, the per-page rasterizer, the
bitmap-to-RGB8 conversion, and the three image encoders. Documents are the
lists of their page tokens; pages, bitmaps and RGB images are opaque `Nat`
tokens; encoders return byte buffers. The lossy encoders take the quality
parameter the respective crates expose (`image`'s JPEG encoder, `webp`'s
encoder). -/
structure Env where
  bindToLibrary : Except String Unit
  bindToSystemLibrary : Except String Unit
  loadPdf : List Nat → Except String (List Nat)
  renderPage : Nat → PdfRenderConfig → Except String Nat
  toRgb8 : Nat → Nat
  encodeJpeg : Nat → Nat → Except String (List Nat)
  encodePng : Nat → Except String (List Nat)
  webpFromImage : Nat → Except String Nat
  webpEncode : Nat → Nat → List Nat

/-- The `or_else` chain that binds the Pdfium library:
`Pdfium::bind_to_library(...).or_else(|_| Pdfium::bind_to_system_library())`. -/
def Env.bindPdfium (env : Env) : Except String Unit :=
  match env.bindToLibrary with
  | .ok u => .ok u
  | .error _ => env.bindToSystemLibrary

/-- The render configuration built for each page in `render_base64_pdf`:
`PdfRenderConfig::new().set_target_width(max_edge_size)
.set_maximum_height(max_edge_size)
.rotate_if_landscape(PdfPageRenderRotation::Degrees90, true)
.render_form_data(true).use_grayscale_rendering(false)`. -/
def pageRenderConfig (max_edge_size : Int) : PdfRenderConfig :=
  { target_width := max_edge_size
    maximum_height := max_edge_size
    rotate_if_landscape_rotation := .degrees90
    rotate_if_landscape_enabled := true
    render_form_data := true
    use_grayscale_rendering := false }

/-- Fail-fast collection over a list, mirroring Rust's
`iter().map(f).collect::<Result<Vec<_>, String>>()`: the first error aborts
and later elements are not visited. -/
def collectExcept (f : α → Except String β) : List α → Except String (List β)
  | [] => .ok []
  | x :: xs =>
      match f x with
      | .error e => .error e
      | .ok y =>
          match collectExcept f xs with
          | .error e => .error e
          | .ok ys => .ok (y :: ys)

/-- Per-page rasterization step: the closure of the first pass in
`render_base64_pdf` (`page.render_with_config(...)` followed by
`bitmap.as_image().into_rgb8()`). -/
def renderStep (env : Env) (max_edge_size : Int) (page : Nat) : Except String Nat :=
  match env.renderPage page (pageRenderConfig max_edge_size) with
  | .error e => .error ("Failed to render PDF page: " ++ e)
  | .ok bitmap => .ok (env.toRgb8 bitmap)

/-- Default quality of the `image` crate's JPEG encoder: `write_to(buffer,
ImageFormat::Jpeg)` constructs `JpegEncoder::new`, whose documented default
quality is 75. The caller-supplied `quality` does not reach this call in the
source. -/
def jpegDefaultQuality : Nat := 75

/-- Encoder dispatch of the second pass in `render_base64_pdf`: produces the
encoded byte buffer written into the page's `Cursor` buffer. The JPEG and
PNG paths go through `image::write_to` (which takes no quality parameter;
the JPEG encoder runs at its default quality); the WEBP path constructs
`webp::Encoder::from_image` and encodes at `quality as f32` (the cast of an
integer in 0..=255 to `f32` is exact, so the quality is modelled as the
integer itself). The `write_all` of the WEBP bytes into the in-memory
`Cursor<Vec<u8>>` buffer cannot fail and is modelled as infallible. -/
def encodeBuffer (env : Env) (format : ImageOutputFormat) (quality : Nat)
    (img : Nat) : Except String (List Nat) :=
  match format with
  | .JPEG =>
      match env.encodeJpeg img jpegDefaultQuality with
      | .error e => .error ("Failed to write JPEG image: " ++ e)
      | .ok buf => .ok buf
  | .PNG =>
      match env.encodePng img with
      | .error e => .error ("Failed to write PNG image: " ++ e)
      | .ok buf => .ok buf
  | .WEBP =>
      match env.webpFromImage img with
      | .error e => .error ("Failed to create WebP encoder: " ++ e)
      | .ok enc => .ok (env.webpEncode enc quality)

/-- Per-page encoding step of the second pass: encode the page's RGB image
into a byte buffer, then base64-encode the buffer into the `PageData`
record (`BASE64.encode(&buffer_data)`). -/
def encodeStep (env : Env) (format : ImageOutputFormat) (quality : Nat)
    (img : Nat) : Except String PageData :=
  match encodeBuffer env format quality img with
  | .error e => .error e
  | .ok buf => .ok { base64_image := Base64.encode buf }

/-- The core pipeline `render_base64_pdf` of `src/core.rs`: validate
`quality` and `max_edge_size`, base64-decode the payload, bind the Pdfium
library, load the document, rasterize every page in document order
(fail-fast), then encode every rendered page (fail-fast) and return the
ordered list of `PageData`. -/
def render_base64_pdf (env : Env) (base64_pdf : String)
    (format : ImageOutputFormat) (quality : Nat) (max_edge_size : Int) :
    Except String (List PageData) :=
  if quality > 100 then .error "Quality must be between 0 and 100"
  else if max_edge_size ≤ 0 ∨ max_edge_size > 10000 then
    .error "max_edge_size must be between 1 and 10000"
  else
    match Base64.decode base64_pdf with
    | .error e => .error ("Invalid base64 input: " ++ e)
    | .ok pdf_data =>
        match env.bindPdfium with
        | .error e => .error ("Failed to bind to Pdfium library: " ++ e)
        | .ok _ =>
            match env.loadPdf pdf_data with
            | .error e => .error ("Failed to load PDF: " ++ e)
            | .ok document =>
                match collectExcept (renderStep env max_edge_size) document with
                | .error e => .error e
                | .ok rendered_pdf =>
                    match collectExcept (encodeStep env format quality) rendered_pdf with
                    | .error e => .error e
                    | .ok images => .ok images

/-- The no-op compression stub `compress_pdf` of `src/core.rs`: validate
`quality` (rejecting 0, unlike `render_base64_pdf`), then return the input
unchanged. The `Box<dyn Error>` error is modelled by its message string. -/
def compress_pdf (base64_pdf : String) (quality : Nat) : Except String String :=
  if quality = 0 ∨ quality > 100 then .error "Quality must be between 1 and 100"
  else .ok base64_pdf

/-- Well-formedness of an environment's encoders: every byte they produce
fits in `u8`. This holds of the real collaborators by typing (`Vec<u8>`). -/
def Env.ValidBuffers (env : Env) : Prop :=
  (∀ img q buf, env.encodeJpeg img q = .ok buf → ∀ b ∈ buf, b < 256) ∧
  (∀ img buf, env.encodePng img = .ok buf → ∀ b ∈ buf, b < 256) ∧
  (∀ enc q b, b ∈ env.webpEncode enc q → b < 256)

/-- Concrete environment for evaluating the pipeline on closed inputs:
binding succeeds, every payload loads as the two-page document `[5, 7]`,
rasterization returns the page token itself, and the encoders return small
buffers that record their inputs (the lossy encoders record the quality
they actually received). -/
def envOk : Env where
  bindToLibrary := .ok ()
  bindToSystemLibrary := .error "no system library"
  loadPdf := fun _ => .ok [5, 7]
  renderPage := fun p _ => .ok p
  toRgb8 := id
  encodeJpeg := fun _ q => .ok [q % 256]
  encodePng := fun i => .ok [i % 256, 1]
  webpFromImage := fun i => .ok i
  webpEncode := fun i q => [i % 256, q % 256]

/-- Concrete environment whose three-page document fails to rasterize at
0-based page index 1 (page token 1), with cause `"boom"`. -/
def envFailSecond : Env :=
  { envOk with
    loadPdf := fun _ => .ok [0, 1, 2]
    renderPage := fun p _ => if p = 1 then .error "boom" else .ok p }

/-- Concrete environment whose three-page document fails to rasterize at
0-based page index 2 (page token 2), with the same cause `"boom"`. -/
def envFailThird : Env :=
  { envOk with
    loadPdf := fun _ => .ok [0, 1, 2]
    renderPage := fun p _ => if p = 2 then .error "boom" else .ok p }

/-! Helper lemmas about fail-fast collection. -/

theorem collectExcept_ok_length {α β : Type} {f : α → Except String β} :
    ∀ {xs : List α} {ys : List β}, collectExcept f xs = .ok ys → ys.length = xs.length := by
  intro xs
  induction xs with
  | nil => intro ys h; simp only [collectExcept] at h; cases h; rfl
  | cons x xs ih =>
      intro ys h
      simp only [collectExcept] at h
      cases hfx : f x with
      | error e => rw [hfx] at h; cases h
      | ok y =>
          rw [hfx] at h
          cases hc : collectExcept f xs with
          | error e => rw [hc] at h; cases h
          | ok ys' =>
              rw [hc] at h
              cases h
              simp [ih hc]

theorem collectExcept_ok_get {α β : Type} {f : α → Except String β} :
    ∀ {xs : List α} {ys : List β}, collectExcept f xs = .ok ys →
      ∀ (i : Nat) (x : α), xs[i]? = some x → ∃ y, f x = .ok y ∧ ys[i]? = some y := by
  intro xs
  induction xs with
  | nil => intro ys _ i x hx; simp at hx
  | cons a xs ih =>
      intro ys h i x hx
      simp only [collectExcept] at h
      cases hfa : f a with
      | error e => rw [hfa] at h; cases h
      | ok y =>
          rw [hfa] at h
          cases hc : collectExcept f xs with
          | error e => rw [hc] at h; cases h
          | ok ys' =>
              rw [hc] at h
              cases h
              cases i with
              | zero =>
                  simp only [List.getElem?_cons_zero, Option.some.injEq] at hx
                  subst hx
                  exact ⟨y, hfa, by simp⟩
              | succ j =>
                  simp only [List.getElem?_cons_succ] at hx ⊢
                  exact ih hc j x hx

theorem collectExcept_error_at {α β : Type} {f : α → Except String β} {e : String} :
    ∀ (front : List α) (p : α) (rest : List α),
      (∀ x ∈ front, ∃ y, f x = .ok y) → f p = .error e →
      collectExcept f (front ++ p :: rest) = .error e := by
  intro front
  induction front with
  | nil => intro p rest _ hp; simp only [List.nil_append, collectExcept, hp]
  | cons a front ih =>
      intro p rest hfront hp
      obtain ⟨y, hy⟩ := hfront a (by simp)
      have ht := ih p rest (fun x hx => hfront x (by simp [hx])) hp
      show collectExcept f (a :: (front ++ p :: rest)) = .error e
      simp only [collectExcept, hy, ht]

/-! Helper lemmas about the base64 codec. -/

namespace Base64

theorem b64Index_b64Char {i : Nat} (h : i < 64) : b64Index (b64Char i) = some i := by
  have key : ∀ j : Fin 64, b64Index (b64Char j.val) = some j.val := by decide
  exact key ⟨i, h⟩

theorem b64Char_ne_pad {i : Nat} (h : i < 64) : b64Char i ≠ '=' := by
  have key : ∀ j : Fin 64, b64Char j.val ≠ '=' := by decide
  exact key ⟨i, h⟩

theorem decodeChunks_encodeChunks :
    ∀ (l : List Nat), (∀ b ∈ l, b < 256) → decodeChunks (encodeChunks l) = .ok l
  | [] => fun _ => rfl
  | [b0] => fun h => by
      have hb0 : b0 < 256 := h b0 (by simp)
      have e0 : b64Index (b64Char (b0 / 4)) = some (b0 / 4) :=
        b64Index_b64Char (by omega)
      have e1 : b64Index (b64Char (b0 % 4 * 16)) = some (b0 % 4 * 16) :=
        b64Index_b64Char (by omega)
      simp only [encodeChunks, decodeChunks, e0, e1]
      rw [if_pos trivial, if_pos ⟨trivial, trivial⟩, if_pos (by omega)]
      have : b0 / 4 * 4 + b0 % 4 * 16 / 16 = b0 := by omega
      rw [this]
  | [b0, b1] => fun h => by
      have hb0 : b0 < 256 := h b0 (by simp)
      have hb1 : b1 < 256 := h b1 (by simp)
      have e0 : b64Index (b64Char (b0 / 4)) = some (b0 / 4) :=
        b64Index_b64Char (by omega)
      have e1 : b64Index (b64Char (b0 % 4 * 16 + b1 / 16)) = some (b0 % 4 * 16 + b1 / 16) :=
        b64Index_b64Char (by omega)
      have e2 : b64Index (b64Char (b1 % 16 * 4)) = some (b1 % 16 * 4) :=
        b64Index_b64Char (by omega)
      have ne2 : b64Char (b1 % 16 * 4) ≠ '=' := b64Char_ne_pad (by omega)
      simp only [encodeChunks, decodeChunks, e0, e1, e2]
      rw [if_neg ne2, if_pos trivial, if_pos trivial, if_pos (by omega)]
      have h0 : b0 / 4 * 4 + (b0 % 4 * 16 + b1 / 16) / 16 = b0 := by omega
      have h1 : (b0 % 4 * 16 + b1 / 16) % 16 * 16 + b1 % 16 * 4 / 4 = b1 := by omega
      rw [h0, h1]
  | b0 :: b1 :: b2 :: rest => fun h => by
      have hb0 : b0 < 256 := h b0 (by simp)
      have hb1 : b1 < 256 := h b1 (by simp)
      have hb2 : b2 < 256 := h b2 (by simp)
      have ih := decodeChunks_encodeChunks rest (fun b hb => h b (by simp [hb]))
      have e0 : b64Index (b64Char (b0 / 4)) = some (b0 / 4) :=
        b64Index_b64Char (by omega)
      have e1 : b64Index (b64Char (b0 % 4 * 16 + b1 / 16)) = some (b0 % 4 * 16 + b1 / 16) :=
        b64Index_b64Char (by omega)
      have e2 : b64Index (b64Char (b1 % 16 * 4 + b2 / 64)) = some (b1 % 16 * 4 + b2 / 64) :=
        b64Index_b64Char (by omega)
      have e3 : b64Index (b64Char (b2 % 64)) = some (b2 % 64) :=
        b64Index_b64Char (by omega)
      have ne2 : b64Char (b1 % 16 * 4 + b2 / 64) ≠ '=' := b64Char_ne_pad (by omega)
      have ne3 : b64Char (b2 % 64) ≠ '=' := b64Char_ne_pad (by omega)
      simp only [encodeChunks, decodeChunks, e0, e1, e2, e3, ih]
      rw [if_neg ne2, if_neg ne3]
      have h0 : b0 / 4 * 4 + (b0 % 4 * 16 + b1 / 16) / 16 = b0 := by omega
      have h1 : (b0 % 4 * 16 + b1 / 16) % 16 * 16 + (b1 % 16 * 4 + b2 / 64) / 4 = b1 := by
        omega
      have h2 : (b1 % 16 * 4 + b2 / 64) % 4 * 64 + b2 % 64 = b2 := by omega
      rw [h0, h1, h2]

theorem decode_encode (l : List Nat) (h : ∀ b ∈ l, b < 256) :
    decode (encode l) = .ok l :=
  decodeChunks_encodeChunks l h

end Base64

/-- Inversion of a successful pipeline run: a run that returns `.ok results`
passed validation, decoded the payload, bound the engine, loaded the
document, rasterized every page, and encoded every rendered page. -/
theorem render_ok_inversion {env : Env} {payload : String}
    {fmt : ImageOutputFormat} {q : Nat} {mes : Int} {results : List PageData}
    (h : render_base64_pdf env payload fmt q mes = .ok results) :
    q ≤ 100 ∧ 0 < mes ∧ mes ≤ 10000 ∧
    ∃ bytes document rendered,
      Base64.decode payload = .ok bytes ∧
      env.bindPdfium = .ok () ∧
      env.loadPdf bytes = .ok document ∧
      collectExcept (renderStep env mes) document = .ok rendered ∧
      collectExcept (encodeStep env fmt q) rendered = .ok results := by
  unfold render_base64_pdf at h
  by_cases hq : q > 100
  · rw [if_pos hq] at h; cases h
  rw [if_neg hq] at h
  by_cases hm : mes ≤ 0 ∨ mes > 10000
  · rw [if_pos hm] at h; cases h
  rw [if_neg hm] at h
  refine ⟨by omega, by omega, by omega, ?_⟩
  cases hd : Base64.decode payload with
  | error e => simp only [hd] at h; cases h
  | ok bytes =>
      simp only [hd] at h
      cases hb : env.bindPdfium with
      | error e => simp only [hb] at h; cases h
      | ok u =>
          simp only [hb] at h
          cases hl : env.loadPdf bytes with
          | error e => simp only [hl] at h; cases h
          | ok document =>
              simp only [hl] at h
              cases hr : collectExcept (renderStep env mes) document with
              | error e => simp only [hr] at h; cases h
              | ok rendered =>
                  simp only [hr] at h
                  cases he : collectExcept (encodeStep env fmt q) rendered with
                  | error e => simp only [he] at h; cases h
                  | ok images =>
                      simp only [he] at h
                      cases h
                      exact ⟨bytes, document, rendered, rfl, by cases u; rfl,
                        hl, hr, he⟩

theorem getq_lt {α : Type} :
    ∀ (l : List α) (i : Nat) (a : α), l[i]? = some a → i < l.length
  | [], i, a, h => by simp at h
  | _ :: _, 0, _, _ => by simp
  | x :: l, i + 1, a, h => by
      simpa using Nat.succ_lt_succ (getq_lt l i a (by simpa using h))

theorem lt_getq {α : Type} :
    ∀ (l : List α) (i : Nat), i < l.length → ∃ a, l[i]? = some a
  | [], i, h => by simp at h
  | x :: l, 0, _ => ⟨x, by simp⟩
  | x :: l, i + 1, h => by simpa using lt_getq l i (by simpa using h)

theorem encodeBuffer_bytes_lt {env : Env} {fmt : ImageOutputFormat} {q img : Nat}
    {buf : List Nat} (hv : env.ValidBuffers)
    (h : encodeBuffer env fmt q img = .ok buf) : ∀ b ∈ buf, b < 256 := by
  cases fmt with
  | JPEG =>
      simp only [encodeBuffer] at h
      cases hj : env.encodeJpeg img jpegDefaultQuality with
      | error e => simp only [hj] at h; cases h
      | ok buf2 => simp only [hj] at h; cases h; exact hv.1 _ _ _ hj
  | PNG =>
      simp only [encodeBuffer] at h
      cases hp : env.encodePng img with
      | error e => simp only [hp] at h; cases h
      | ok buf2 => simp only [hp] at h; cases h; exact hv.2.1 _ _ hp
  | WEBP =>
      simp only [encodeBuffer] at h
      cases hw : env.webpFromImage img with
      | error e => simp only [hw] at h; cases h
      | ok enc => simp only [hw] at h; cases h; exact fun b hb => hv.2.2 enc q b hb

theorem envOk_validBuffers : envOk.ValidBuffers := by
  refine ⟨?_, ?_, ?_⟩
  · intro img q buf h b hb
    cases h; simp at hb; omega
  · intro img buf h b hb
    cases h; simp at hb; rcases hb with hb | hb <;> omega
  · intro enc q b hb
    simp [envOk] at hb; rcases hb with hb | hb <;> omega

/-- Claim C1: `render_base64_pdf` is all-or-nothing — every successful call
returns an ordered sequence whose length equals the loaded document's page
count; a partial sequence is impossible (any failure yields an `Err` and no
result list). -/
theorem render_all_or_nothing (env : Env) (payload : String)
    (fmt : ImageOutputFormat) (q : Nat) (mes : Int) (results : List PageData)
    (h : render_base64_pdf env payload fmt q mes = .ok results) :
    ∃ bytes document,
      Base64.decode payload = .ok bytes ∧
      env.loadPdf bytes = .ok document ∧
      results.length = document.length := by
  obtain ⟨-, -, -, bytes, document, rendered, hd, hb, hl, hr, he⟩ :=
    render_ok_inversion h
  exact ⟨bytes, document, hd, hl,
    by rw [collectExcept_ok_length he, collectExcept_ok_length hr]⟩

/-- Witness for C1 at a concrete two-page environment. -/
theorem render_all_or_nothing_witness :
    ∃ bytes document,
      Base64.decode "" = .ok bytes ∧
      envOk.loadPdf bytes = .ok document ∧
      ([{ base64_image := Base64.encode [5, 1] },
        { base64_image := Base64.encode [7, 1] }] : List PageData).length =
        document.length :=
  render_all_or_nothing envOk "" .PNG 50 100 _ rfl

/-- Claim C2: in every successful call, the page result at output index `i`
is the rendered-and-encoded image of source page `i`, in document order;
no reordering occurs. -/
theorem render_preserves_page_order (env : Env) (payload : String)
    (fmt : ImageOutputFormat) (q : Nat) (mes : Int) (results : List PageData)
    (h : render_base64_pdf env payload fmt q mes = .ok results) :
    ∃ bytes document,
      Base64.decode payload = .ok bytes ∧
      env.loadPdf bytes = .ok document ∧
      results.length = document.length ∧
      ∀ (i : Nat) (page : Nat), document[i]? = some page →
        ∃ img pd, renderStep env mes page = .ok img ∧
          encodeStep env fmt q img = .ok pd ∧
          results[i]? = some pd := by
  obtain ⟨-, -, -, bytes, document, rendered, hd, hb, hl, hr, he⟩ :=
    render_ok_inversion h
  refine ⟨bytes, document, hd, hl,
    by rw [collectExcept_ok_length he, collectExcept_ok_length hr], ?_⟩
  intro i page hpage
  obtain ⟨img, himg, hri⟩ := collectExcept_ok_get hr i page hpage
  obtain ⟨pd, hpd, hresi⟩ := collectExcept_ok_get he i img hri
  exact ⟨img, pd, himg, hpd, hresi⟩

/-- Witness for C2 at a concrete two-page environment. -/
theorem render_preserves_page_order_witness :
    ∃ bytes document,
      Base64.decode "" = .ok bytes ∧
      envOk.loadPdf bytes = .ok document ∧
      ([{ base64_image := Base64.encode [5, 1] },
        { base64_image := Base64.encode [7, 1] }] : List PageData).length =
        document.length ∧
      ∀ (i : Nat) (page : Nat), document[i]? = some page →
        ∃ img pd, renderStep envOk 100 page = .ok img ∧
          encodeStep envOk .PNG 50 img = .ok pd ∧
          ([{ base64_image := Base64.encode [5, 1] },
            { base64_image := Base64.encode [7, 1] }] : List PageData)[i]? =
            some pd :=
  render_preserves_page_order envOk "" .PNG 50 100 _ rfl

/-- Claim C4: format parsing is case-insensitive over the closed set
{JPEG, PNG, WEBP}: `fromStr` succeeds exactly when the uppercasing of the
input is one of the three names (yielding the matching variant), and every
other string yields an error value (the function is total, so it never
panics). -/
theorem fromStr_case_insensitive (s : String) :
    (upperStr s = "JPEG" → ImageOutputFormat.fromStr s = .ok .JPEG) ∧
    (upperStr s = "PNG" → ImageOutputFormat.fromStr s = .ok .PNG) ∧
    (upperStr s = "WEBP" → ImageOutputFormat.fromStr s = .ok .WEBP) ∧
    (upperStr s ≠ "JPEG" → upperStr s ≠ "PNG" → upperStr s ≠ "WEBP" →
      ImageOutputFormat.fromStr s =
        .error ("Invalid format: " ++ s ++ ". Must be JPEG, PNG, or WEBP")) := by
  refine ⟨fun h => ?_, fun h => ?_, fun h => ?_, fun h1 h2 h3 => ?_⟩ <;>
    simp only [ImageOutputFormat.fromStr]
  · rw [if_pos h]
  · rw [if_neg (by rw [h]; decide), if_pos h]
  · rw [if_neg (by rw [h]; decide), if_neg (by rw [h]; decide), if_pos h]
  · rw [if_neg h1, if_neg h2, if_neg h3]

/-- Witness for C4: a mixed-case accepted string and a rejected string. -/
theorem fromStr_case_insensitive_witness :
    ImageOutputFormat.fromStr "wEbP" = .ok .WEBP ∧
    ImageOutputFormat.fromStr "gif" =
      .error "Invalid format: gif. Must be JPEG, PNG, or WEBP" :=
  ⟨(fromStr_case_insensitive "wEbP").2.2.1 rfl,
   (fromStr_case_insensitive "gif").2.2.2 (by decide) (by decide) (by decide)⟩

/-- Claim C5: for format PNG the quality parameter has no effect — two
calls on the same payload and `max_edge_size` with any two in-range quality
values return identical output sequences. -/
theorem png_quality_noop (env : Env) (payload : String) (mes : Int)
    (q1 q2 : Nat) (h1 : q1 ≤ 100) (h2 : q2 ≤ 100) :
    render_base64_pdf env payload .PNG q1 mes =
      render_base64_pdf env payload .PNG q2 mes := by
  unfold render_base64_pdf
  rw [if_neg (show ¬(100 < q1) by omega), if_neg (show ¬(100 < q2) by omega)]
  rfl

/-- Witness for C5 at two distinct in-range qualities. -/
theorem png_quality_noop_witness :
    render_base64_pdf envOk "" .PNG 30 100 =
      render_base64_pdf envOk "" .PNG 90 100 :=
  png_quality_noop envOk "" 100 30 90 (by decide) (by decide)

/-- Claim C7: every page of a call is rendered with the configuration that
sets `target_width` and `maximum_height` to `max_edge_size`, rotate-if-
landscape by 90 degrees enabled, form-field rendering enabled, and
grayscale disabled (full-color RGB); the same configuration for every
page. -/
theorem render_config_per_page (env : Env) (payload : String)
    (fmt : ImageOutputFormat) (q : Nat) (mes : Int) (results : List PageData)
    (h : render_base64_pdf env payload fmt q mes = .ok results) :
    ∃ bytes document,
      Base64.decode payload = .ok bytes ∧
      env.loadPdf bytes = .ok document ∧
      ∀ (i : Nat) (page : Nat), document[i]? = some page →
        ∃ bitmap, env.renderPage page
          { target_width := mes
            maximum_height := mes
            rotate_if_landscape_rotation := .degrees90
            rotate_if_landscape_enabled := true
            render_form_data := true
            use_grayscale_rendering := false } = .ok bitmap := by
  obtain ⟨-, -, -, bytes, document, rendered, hd, hb, hl, hr, he⟩ :=
    render_ok_inversion h
  refine ⟨bytes, document, hd, hl, ?_⟩
  intro i page hpage
  obtain ⟨img, himg, -⟩ := collectExcept_ok_get hr i page hpage
  unfold renderStep at himg
  cases hrp : env.renderPage page (pageRenderConfig mes) with
  | error e => simp only [hrp] at himg; cases himg
  | ok bitmap => exact ⟨bitmap, hrp⟩

/-- Witness for C7 at a concrete two-page environment. -/
theorem render_config_per_page_witness :
    ∃ bytes document,
      Base64.decode "" = .ok bytes ∧
      envOk.loadPdf bytes = .ok document ∧
      ∀ (i : Nat) (page : Nat), document[i]? = some page →
        ∃ bitmap, envOk.renderPage page
          { target_width := 100
            maximum_height := 100
            rotate_if_landscape_rotation := .degrees90
            rotate_if_landscape_enabled := true
            render_form_data := true
            use_grayscale_rendering := false } = .ok bitmap :=
  render_config_per_page envOk "" .PNG 50 100 _ rfl

/-- Counterexample to claim C3 as stated: `quality = 0` lies outside
`[1, 100]`, yet the call does not fail with a validation error — the
validator only rejects `quality > 100`, so the whole pipeline runs (the
payload is decoded, the document is loaded) and succeeds. -/
theorem quality_zero_not_rejected :
    render_base64_pdf envOk "" .PNG 0 100 =
      .ok [{ base64_image := Base64.encode [5, 1] },
           { base64_image := Base64.encode [7, 1] }] := rfl

/-- Claim C3 (amended): for every quality outside `[0, 100]` and every
`max_edge_size` outside `[1, 10000]`, the call fails with the corresponding
validation error before any document bytes are decoded — the result is this
error for every environment and every payload, so the base64 decode and the
loader are never consulted. -/
theorem validation_before_decode (env : Env) (payload : String)
    (fmt : ImageOutputFormat) (q : Nat) (mes : Int)
    (h : 100 < q ∨ mes ≤ 0 ∨ 10000 < mes) :
    render_base64_pdf env payload fmt q mes =
      .error (if 100 < q then "Quality must be between 0 and 100"
              else "max_edge_size must be between 1 and 10000") := by
  unfold render_base64_pdf
  by_cases hq : 100 < q
  · simp only [if_pos hq]
  · have hm : mes ≤ 0 ∨ mes > 10000 := by
      rcases h with h | h | h
      · exact absurd h hq
      · exact Or.inl h
      · exact Or.inr h
    simp only [if_neg hq, if_pos hm]

/-- Witness for the amended C3 at `quality = 101` and at
`max_edge_size = 0`. -/
theorem validation_before_decode_witness :
    render_base64_pdf envOk "" .PNG 101 100 =
      .error "Quality must be between 0 and 100" ∧
    render_base64_pdf envOk "" .PNG 50 0 =
      .error "max_edge_size must be between 1 and 10000" := by
  constructor
  · rw [validation_before_decode envOk "" .PNG 101 100 (Or.inl (by decide))]
    rfl
  · rw [validation_before_decode envOk "" .PNG 50 0 (Or.inr (Or.inl (by decide)))]
    rfl

/-- Claim C6 is violated by the code: in `envOk` the JPEG encoder records
the quality it receives (it returns `[q % 256]`), and a call with
caller-supplied quality 90 produces pages whose buffer is `[75]` — the
`image` crate's default JPEG quality — not `[90]`. The caller's quality is
not forwarded to the JPEG encoder (it is only forwarded to the WEBP
encoder). -/
theorem jpeg_quality_not_forwarded :
    render_base64_pdf envOk "" .JPEG 90 100 =
      .ok [{ base64_image := Base64.encode [75] },
           { base64_image := Base64.encode [75] }] ∧
    envOk.encodeJpeg 5 90 = .ok [90] ∧
    Base64.encode [75] ≠ Base64.encode [90] :=
  ⟨rfl, rfl, by decide⟩

/-- Counterexample to claim C8 as stated: the error of a failed call does
not carry the failing page's index. `envFailSecond` fails first at 0-based
page index 1 and `envFailThird` fails first at index 2 (their first pages
render fine), yet both calls return the identical error value, so the error
cannot carry (or even determine) the failing page index. -/
theorem render_error_lacks_page_index :
    render_base64_pdf envFailSecond "" .PNG 50 100 =
      .error "Failed to render PDF page: boom" ∧
    render_base64_pdf envFailThird "" .PNG 50 100 =
      .error "Failed to render PDF page: boom" ∧
    envFailSecond.loadPdf [] = .ok [0, 1, 2] ∧
    envFailThird.loadPdf [] = .ok [0, 1, 2] ∧
    envFailSecond.renderPage 0 (pageRenderConfig 100) = .ok 0 ∧
    envFailSecond.renderPage 1 (pageRenderConfig 100) = .error "boom" ∧
    envFailThird.renderPage 0 (pageRenderConfig 100) = .ok 0 ∧
    envFailThird.renderPage 1 (pageRenderConfig 100) = .ok 1 ∧
    envFailThird.renderPage 2 (pageRenderConfig 100) = .error "boom" :=
  ⟨rfl, rfl, rfl, rfl, rfl, rfl, rfl, rfl, rfl⟩

/-- Claim C8 (amended): when the engine fails to render some page (the
first failing page, with every earlier page rendering fine), the entire
call fails with a page-render error carrying the engine's cause — but not
the page index — and no result sequence is returned. -/
theorem page_failure_aborts_call (env : Env) (payload : String)
    (fmt : ImageOutputFormat) (q : Nat) (mes : Int)
    (bytes : List Nat) (document front rest : List Nat) (p : Nat) (c : String)
    (hq : q ≤ 100) (hm1 : 0 < mes) (hm2 : mes ≤ 10000)
    (hd : Base64.decode payload = .ok bytes)
    (hb : env.bindPdfium = .ok ())
    (hl : env.loadPdf bytes = .ok document)
    (hdoc : document = front ++ p :: rest)
    (hfront : ∀ x ∈ front, ∃ bitmap,
      env.renderPage x (pageRenderConfig mes) = .ok bitmap)
    (hp : env.renderPage p (pageRenderConfig mes) = .error c) :
    render_base64_pdf env payload fmt q mes =
      .error ("Failed to render PDF page: " ++ c) := by
  subst hdoc
  have hcol : collectExcept (renderStep env mes) (front ++ p :: rest) =
      .error ("Failed to render PDF page: " ++ c) := by
    apply collectExcept_error_at
    · intro x hx
      obtain ⟨bitmap, hbm⟩ := hfront x hx
      exact ⟨env.toRgb8 bitmap, by simp only [renderStep, hbm]⟩
    · simp only [renderStep, hp]
  unfold render_base64_pdf
  rw [if_neg (show ¬(100 < q) by omega),
    if_neg (show ¬(mes ≤ 0 ∨ mes > 10000) by omega)]
  simp only [hd, hb, hl, hcol]

/-- Witness for the amended C8: a three-page document whose 0-based page 1
fails, with page 0 rendering fine. -/
theorem page_failure_aborts_call_witness :
    render_base64_pdf envFailSecond "" .PNG 50 100 =
      .error ("Failed to render PDF page: " ++ "boom") :=
  page_failure_aborts_call envFailSecond "" .PNG 50 100 [] [0, 1, 2] [0] [2] 1
    "boom" (by decide) (by decide) (by decide) rfl rfl rfl rfl
    (by intro x hx
        simp only [List.mem_singleton] at hx
        subst hx
        exact ⟨0, rfl⟩)
    rfl

/-- Claim C9: `compress_pdf` rejects quality 0 and quality above 100 with
an error, and for every quality in `[1, 100]` it returns the input string
unchanged — a no-op passthrough. -/
theorem compress_pdf_noop (s : String) (q : Nat) :
    ((q = 0 ∨ 100 < q) → compress_pdf s q =
      .error "Quality must be between 1 and 100") ∧
    (1 ≤ q → q ≤ 100 → compress_pdf s q = .ok s) := by
  constructor
  · intro h
    unfold compress_pdf
    rw [if_pos h]
  · intro h1 h2
    unfold compress_pdf
    rw [if_neg (by omega)]

/-- Witness for C9 at quality 75 (passthrough), 0 and 101 (rejected). -/
theorem compress_pdf_noop_witness :
    compress_pdf "JVBERi0=" 75 = .ok "JVBERi0=" ∧
    compress_pdf "JVBERi0=" 0 = .error "Quality must be between 1 and 100" ∧
    compress_pdf "JVBERi0=" 101 = .error "Quality must be between 1 and 100" :=
  ⟨(compress_pdf_noop "JVBERi0=" 75).2 (by decide) (by decide),
   (compress_pdf_noop "JVBERi0=" 0).1 (Or.inl rfl),
   (compress_pdf_noop "JVBERi0=" 101).1 (Or.inr (by decide))⟩

/-- Claim C10: in every successful result, each page's `base64_image` field
is unconditionally the base64 encoding of the byte buffer the selected
encoder produced for that page, and base64-decoding it succeeds and yields
exactly that buffer. (The `u8` typing of the real encoders' output is the
`Env.ValidBuffers` hypothesis.) -/
theorem base64_field_roundtrip (env : Env) (payload : String)
    (fmt : ImageOutputFormat) (q : Nat) (mes : Int) (results : List PageData)
    (hv : env.ValidBuffers)
    (h : render_base64_pdf env payload fmt q mes = .ok results) :
    ∀ (i : Nat) (pd : PageData), results[i]? = some pd →
      ∃ img buf, encodeBuffer env fmt q img = .ok buf ∧
        pd.base64_image = Base64.encode buf ∧
        Base64.decode pd.base64_image = .ok buf := by
  obtain ⟨-, -, -, bytes, document, rendered, hd, hb, hl, hr, he⟩ :=
    render_ok_inversion h
  intro i pd hpd
  have hi : i < results.length := getq_lt _ _ _ hpd
  have hlen : results.length = rendered.length := collectExcept_ok_length he
  obtain ⟨img, himg⟩ := lt_getq rendered i (by omega)
  obtain ⟨pd2, hpd2, hres2⟩ := collectExcept_ok_get he i img himg
  rw [hpd] at hres2
  cases hres2
  unfold encodeStep at hpd2
  cases hbuf : encodeBuffer env fmt q img with
  | error e => simp only [hbuf] at hpd2; cases hpd2
  | ok buf =>
      simp only [hbuf] at hpd2
      cases hpd2
      refine ⟨img, buf, hbuf, rfl, ?_⟩
      exact Base64.decode_encode buf (encodeBuffer_bytes_lt hv hbuf)

/-- Witness for C10 at a concrete two-page environment, index 0. -/
theorem base64_field_roundtrip_witness :
    ∃ img buf, encodeBuffer envOk .PNG 50 img = .ok buf ∧
      (PageData.mk (Base64.encode [5, 1])).base64_image = Base64.encode buf ∧
      Base64.decode (PageData.mk (Base64.encode [5, 1])).base64_image =
        .ok buf :=
  base64_field_roundtrip envOk "" .PNG 50 100 _ envOk_validBuffers rfl 0
    (PageData.mk (Base64.encode [5, 1])) rfl

end ZtronPdf
